import Mathlib

/-!
Verification of the fiscal-calculator core (`src/calc.py`).

The core consists of two CSV loaders (`load_tax_table`, `load_spend_table`)
that validate column presence, and two pure aggregators
(`compute_tax_delta`, `compute_spend_delta`) that fold a caller-supplied
change mapping over the rows of a table and round the accumulated £bn delta
to two decimal places.

Embedding conventions: a pandas DataFrame of lever rows is a `List` of row
structures; numeric cells are exact rationals; a Python dict is an
association list with first-match lookup; Python's built-in `round`
(round-half-to-even) is modelled exactly over ℚ.
-/

namespace SpendingReview

/-- A row of the tax-lever table: named lever, display unit, baseline value,
marginal £bn impact on receipts per unit of change, and slider bounds.
Columns as required by `load_tax_table` in `src/calc.py`. -/
structure TaxRow where
  name : String
  unit : String
  baseline : ℚ
  delta_per_unit : ℚ
  min_change : ℚ
  max_change : ℚ
deriving DecidableEq

/-- A row of the spending-programme table: named programme, baseline £bn,
and percentage slider bounds.  Columns as required by `load_spend_table`. -/
structure SpendRow where
  name : String
  baseline : ℚ
  min_pct : ℚ
  max_pct : ℚ
deriving DecidableEq

/-- Python's `dict.get(key, default)` on an association list. -/
def dictGet (d : List (String × ℚ)) (key : String) (default : ℚ) : ℚ :=
  match d.lookup key with
  | some v => v
  | none => default

/-- The floor of a rational, computed directly by floor division of the
numerator by the (positive) denominator. -/
def ratFloor (x : ℚ) : ℤ := x.num.fdiv x.den

/-- Round a rational to the nearest integer, ties to even: the tie-breaking
rule of Python's built-in `round`. -/
def roundHalfEven (x : ℚ) : ℤ :=
  let f : ℤ := ratFloor x
  let r : ℚ := x - f
  if r < 1/2 then f
  else if 1/2 < r then f + 1
  else if f % 2 = 0 then f else f + 1

/-- Python's `round(x, 2)`, modelled exactly over ℚ. -/
def round2 (x : ℚ) : ℚ := (roundHalfEven (x * 100) : ℚ) / 100

/-- `compute_tax_delta(df, change_dict)` from `src/calc.py`: start from
`delta = 0.0`, for each row add `change_dict.get(row["name"], 0) *
row["delta_per_unit"]`, and return `round(delta, 2)`. -/
def compute_tax_delta (df : List TaxRow) (change_dict : List (String × ℚ)) : ℚ :=
  round2 (df.foldl
    (fun delta row => delta + dictGet change_dict row.name 0 * row.delta_per_unit) 0)

/-- `compute_spend_delta(df, change_dict)` from `src/calc.py`: start from
`delta = 0.0`, for each row add `change_dict.get(row["name"], 0.0) *
row["baseline"]`, and return `round(delta, 2)`. -/
def compute_spend_delta (df : List SpendRow) (change_dict : List (String × ℚ)) : ℚ :=
  round2 (df.foldl
    (fun delta row => delta + dictGet change_dict row.name 0 * row.baseline) 0)

/-- A raw table as produced by `pd.read_csv`: its column names and its rows
of uninterpreted cells.  The loaders only inspect `columns` and otherwise
pass the table through untouched. -/
structure RawTable where
  columns : List String
  rows : List (List String)
deriving DecidableEq

/-- The column set `needed` of `load_tax_table`. -/
def taxNeeded : Finset String :=
  {"name", "unit", "baseline", "delta_per_unit", "min_change", "max_change"}

/-- The column set `needed` of `load_spend_table`. -/
def spendNeeded : Finset String :=
  {"name", "baseline", "min_pct", "max_pct"}

/-- `load_tax_table` from `src/calc.py`, after the `pd.read_csv` step: if
the needed columns are not a subset of the table's columns, raise a
`ValueError` carrying `needed - set(df.columns)`; otherwise return the
table unchanged. -/
def load_tax_table (df : RawTable) : Except (Finset String) RawTable :=
  if taxNeeded ⊆ df.columns.toFinset then .ok df
  else .error (taxNeeded \ df.columns.toFinset)

/-- `load_spend_table` from `src/calc.py`, after the `pd.read_csv` step. -/
def load_spend_table (df : RawTable) : Except (Finset String) RawTable :=
  if spendNeeded ⊆ df.columns.toFinset then .ok df
  else .error (spendNeeded \ df.columns.toFinset)

/-- The contribution of one tax row, as the spec writes it:
`change[name] × delta_per_unit` with absent names defaulting to 0. -/
def taxTerm (change_dict : List (String × ℚ)) (row : TaxRow) : ℚ :=
  dictGet change_dict row.name 0 * row.delta_per_unit

/-- The contribution of one spend row, as the spec writes it:
`change[name] × baseline` with absent names defaulting to 0. -/
def spendTerm (change_dict : List (String × ℚ)) (row : SpendRow) : ℚ :=
  dictGet change_dict row.name 0 * row.baseline

/-- The spec's formula for the tax aggregator:
`round₂ (Σ over rows of change[name] × delta_per_unit)`. -/
def tax_delta_spec (df : List TaxRow) (change_dict : List (String × ℚ)) : ℚ :=
  round2 ((df.map (taxTerm change_dict)).sum)

/-- The spec's formula for the spend aggregator:
`round₂ (Σ over rows of change[name] × baseline)`. -/
def spend_delta_spec (df : List SpendRow) (change_dict : List (String × ℚ)) : ℚ :=
  round2 ((df.map (spendTerm change_dict)).sum)

/- ### Helper lemmas -/

theorem foldl_add_eq_sum {α : Type} (f : α → ℚ) (l : List α) (a : ℚ) :
    l.foldl (fun d x => d + f x) a = a + (l.map f).sum := by
  induction l generalizing a with
  | nil => simp
  | cons x xs ih => simp [List.foldl_cons, ih (a + f x)]; ring

theorem tax_delta_eq_sum (df : List TaxRow) (c : List (String × ℚ)) :
    compute_tax_delta df c = round2 ((df.map (taxTerm c)).sum) := by
  unfold compute_tax_delta taxTerm
  rw [foldl_add_eq_sum (fun row => dictGet c row.name 0 * row.delta_per_unit) df 0]
  simp

theorem spend_delta_eq_sum (df : List SpendRow) (c : List (String × ℚ)) :
    compute_spend_delta df c = round2 ((df.map (spendTerm c)).sum) := by
  unfold compute_spend_delta spendTerm
  rw [foldl_add_eq_sum (fun row => dictGet c row.name 0 * row.baseline) df 0]
  simp

theorem ratFloor_eq_floor (x : ℚ) : ratFloor x = ⌊x⌋ := by
  rw [ratFloor, Rat.floor_def, Int.fdiv_eq_ediv _ (Int.ofNat_nonneg x.den)]

theorem round2_zero : round2 0 = 0 := of_decide_eq_true (by with_unfolding_all rfl)

theorem dictGet_zeros (zs : List (String × ℚ)) (k : String)
    (hz : ∀ p ∈ zs, p.2 = 0) : dictGet zs k 0 = 0 := by
  induction zs with
  | nil => rfl
  | cons p t ih =>
      unfold dictGet
      rw [List.lookup_cons]
      cases hka : (k == p.1) with
      | true => exact hz p (List.mem_cons_self p t)
      | false => exact ih fun q hq => hz q (List.mem_cons_of_mem p hq)

theorem dictGet_append_zeros (c zs : List (String × ℚ)) (k : String)
    (hz : ∀ p ∈ zs, p.2 = 0) : dictGet (c ++ zs) k 0 = dictGet c k 0 := by
  induction c with
  | nil => simpa using dictGet_zeros zs k hz
  | cons p t ih =>
      unfold dictGet
      rw [List.cons_append, List.lookup_cons, List.lookup_cons]
      cases hka : (k == p.1) with
      | true => rfl
      | false => exact ih

theorem lookup_filter_key (l : List (String × ℚ)) (k : String) (p : String → Bool)
    (hk : p k = true) :
    List.lookup k (l.filter fun q => p q.1) = List.lookup k l := by
  induction l with
  | nil => rfl
  | cons a t ih =>
      by_cases hka : k = a.1
      · subst hka
        rw [List.filter_cons, if_pos (by simpa using hk)]
        rw [List.lookup_cons, List.lookup_cons, beq_self_eq_true]
      · have hbeq : (k == a.1) = false := beq_false_of_ne hka
        rw [List.filter_cons]
        by_cases hpa : p a.1 = true
        · rw [if_pos (by simpa using hpa), List.lookup_cons, List.lookup_cons, hbeq]
          exact ih
        · rw [if_neg (by simpa using hpa), List.lookup_cons, hbeq]
          exact ih

/- ### Claim theorems -/

/-- C1: for every tax table and every change mapping, `compute_tax_delta`
returns the sum over all rows of the mapping's value for the row's name
(defaulting to 0 when absent) times the row's `delta_per_unit`, rounded to
2 decimal places. -/
theorem compute_tax_delta_eq_spec (df : List TaxRow) (c : List (String × ℚ)) :
    compute_tax_delta df c = tax_delta_spec df c :=
  tax_delta_eq_sum df c

/-- C2: for every spend table and every change mapping, `compute_spend_delta`
returns the sum over all rows of the mapping's value for the row's name
(defaulting to 0 when absent) times the row's `baseline`, rounded to
2 decimal places. -/
theorem compute_spend_delta_eq_spec (df : List SpendRow) (c : List (String × ℚ)) :
    compute_spend_delta df c = spend_delta_spec df c :=
  spend_delta_eq_sum df c

/-- C3: each loader returns its table unchanged exactly when every required
column is present, and otherwise fails with exactly the (nonempty) set of
missing required columns. -/
theorem loaders_validate_columns (t s : RawTable) :
    (load_tax_table t = .ok t ↔ taxNeeded ⊆ t.columns.toFinset) ∧
    (¬ taxNeeded ⊆ t.columns.toFinset →
      load_tax_table t = .error (taxNeeded \ t.columns.toFinset) ∧
        (taxNeeded \ t.columns.toFinset).Nonempty) ∧
    (load_spend_table s = .ok s ↔ spendNeeded ⊆ s.columns.toFinset) ∧
    (¬ spendNeeded ⊆ s.columns.toFinset →
      load_spend_table s = .error (spendNeeded \ s.columns.toFinset) ∧
        (spendNeeded \ s.columns.toFinset).Nonempty) := by
  refine ⟨?_, ?_, ?_, ?_⟩
  · unfold load_tax_table
    by_cases h : taxNeeded ⊆ t.columns.toFinset <;> simp [h]
  · intro h
    unfold load_tax_table
    rw [if_neg h]
    exact ⟨rfl, Finset.sdiff_nonempty.mpr h⟩
  · unfold load_spend_table
    by_cases h : spendNeeded ⊆ s.columns.toFinset <;> simp [h]
  · intro h
    unfold load_spend_table
    rw [if_neg h]
    exact ⟨rfl, Finset.sdiff_nonempty.mpr h⟩

/-- C3 witness: a tax table with only `name` and `baseline` is rejected with
the four remaining required columns; a complete spend table passes through
unchanged. -/
theorem loaders_validate_columns_witness :
    load_tax_table ⟨["name", "baseline"], []⟩
        = .error (taxNeeded \ (["name", "baseline"] : List String).toFinset) ∧
      load_spend_table ⟨["name", "baseline", "min_pct", "max_pct"], []⟩
        = .ok ⟨["name", "baseline", "min_pct", "max_pct"], []⟩ :=
  ⟨((loaders_validate_columns ⟨["name", "baseline"], []⟩
        ⟨["name", "baseline", "min_pct", "max_pct"], []⟩).2.1 (by decide)).1,
   ((loaders_validate_columns ⟨["name", "baseline"], []⟩
        ⟨["name", "baseline", "min_pct", "max_pct"], []⟩).2.2.1).mpr (by decide)⟩

/-- C4: both aggregators are invariant under permutation of the table's
rows: row iteration order does not affect the result. -/
theorem delta_perm_invariant (df df' : List TaxRow) (sf sf' : List SpendRow)
    (c cs : List (String × ℚ)) (hT : df.Perm df') (hS : sf.Perm sf') :
    compute_tax_delta df c = compute_tax_delta df' c ∧
      compute_spend_delta sf cs = compute_spend_delta sf' cs := by
  constructor
  · rw [tax_delta_eq_sum, tax_delta_eq_sum, (hT.map (taxTerm c)).sum_eq]
  · rw [spend_delta_eq_sum, spend_delta_eq_sum, (hS.map (spendTerm cs)).sum_eq]

/-- C4 witness: swapping the two rows of a concrete tax table and of a
concrete spend table leaves both deltas unchanged. -/
theorem delta_perm_invariant_witness :
    compute_tax_delta [⟨"A", "u", 0, 2, 0, 0⟩, ⟨"B", "u", 0, 3, 0, 0⟩] [("A", 1), ("B", 1)]
        = compute_tax_delta [⟨"B", "u", 0, 3, 0, 0⟩, ⟨"A", "u", 0, 2, 0, 0⟩] [("A", 1), ("B", 1)] ∧
      compute_spend_delta [⟨"N", 10, 0, 0⟩, ⟨"D", 20, 0, 0⟩] [("N", 1)]
        = compute_spend_delta [⟨"D", 20, 0, 0⟩, ⟨"N", 10, 0, 0⟩] [("N", 1)] :=
  delta_perm_invariant _ _ _ _ _ _ (List.Perm.swap _ _ _) (List.Perm.swap _ _ _)

/-- C5: extending a change mapping with explicit zero entries (for levers it
omitted) changes neither aggregator's result: an omitted lever name behaves
exactly like a zero change.  Both aggregators are total functions of their
inputs in this embedding, mirroring `dict.get`'s no-raise semantics. -/
theorem omitted_levers_zero (df : List TaxRow) (sf : List SpendRow)
    (c zs : List (String × ℚ)) (hz : ∀ p ∈ zs, p.2 = 0) :
    compute_tax_delta df (c ++ zs) = compute_tax_delta df c ∧
      compute_spend_delta sf (c ++ zs) = compute_spend_delta sf c := by
  constructor
  · rw [tax_delta_eq_sum, tax_delta_eq_sum]
    refine congrArg round2 (congrArg List.sum (List.map_congr_left fun r _ => ?_))
    unfold taxTerm
    rw [dictGet_append_zeros c zs r.name hz]
  · rw [spend_delta_eq_sum, spend_delta_eq_sum]
    refine congrArg round2 (congrArg List.sum (List.map_congr_left fun r _ => ?_))
    unfold spendTerm
    rw [dictGet_append_zeros c zs r.name hz]

/-- C5 witness: appending an explicit zero entry for an omitted lever `B`
leaves both deltas unchanged on concrete tables. -/
theorem omitted_levers_zero_witness :
    compute_tax_delta [⟨"A", "u", 0, 2, 0, 0⟩] ([("A", 1)] ++ [("B", 0)])
        = compute_tax_delta [⟨"A", "u", 0, 2, 0, 0⟩] [("A", 1)] ∧
      compute_spend_delta [⟨"A", 5, 0, 0⟩] ([("A", 1)] ++ [("B", 0)])
        = compute_spend_delta [⟨"A", 5, 0, 0⟩] [("A", 1)] :=
  omitted_levers_zero _ _ _ _ (by
    intro p hp
    rw [List.mem_singleton] at hp
    subst hp
    rfl)

/-- C6: a change mapping that is zero on every lever name of the tables (in
particular the empty mapping) yields a delta of 0 from both aggregators. -/
theorem zero_change_zero_delta (df : List TaxRow) (sf : List SpendRow)
    (c cs : List (String × ℚ))
    (hT : ∀ r ∈ df, dictGet c r.name 0 = 0)
    (hS : ∀ r ∈ sf, dictGet cs r.name 0 = 0) :
    compute_tax_delta df c = 0 ∧ compute_spend_delta sf cs = 0 := by
  constructor
  · rw [tax_delta_eq_sum]
    have hsum : (df.map (taxTerm c)).sum = 0 := by
      apply List.sum_eq_zero
      intro x hx
      rcases List.mem_map.mp hx with ⟨r, hr, rfl⟩
      unfold taxTerm
      rw [hT r hr, zero_mul]
    rw [hsum, round2_zero]
  · rw [spend_delta_eq_sum]
    have hsum : (sf.map (spendTerm cs)).sum = 0 := by
      apply List.sum_eq_zero
      intro x hx
      rcases List.mem_map.mp hx with ⟨r, hr, rfl⟩
      unfold spendTerm
      rw [hS r hr, zero_mul]
    rw [hsum, round2_zero]

/-- C6 witness: the empty change mapping yields delta 0 on concrete tables. -/
theorem zero_change_zero_delta_witness :
    compute_tax_delta [⟨"A", "u", 0, 2, 0, 0⟩] [] = 0 ∧
      compute_spend_delta [⟨"A", 5, 0, 0⟩] [] = 0 :=
  zero_change_zero_delta _ _ [] [] (fun _ _ => rfl) (fun _ _ => rfl)

/-- C7: the spec's worked examples: the tax table
`[{VAT, delta_per_unit = 8.5}, {CT, delta_per_unit = 3.6}]` with changes
`{VAT: 2, CT: -1}` gives 13.4, and the spend table
`[{NHS, baseline = 192}, {Defence, baseline = 57}]` with changes
`{NHS: 0.1, Defence: -0.2}` gives 7.8. -/
theorem worked_examples :
    compute_tax_delta
        [⟨"VAT", "ppt", 0, 8.5, 0, 0⟩, ⟨"CT", "ppt", 0, 3.6, 0, 0⟩]
        [("VAT", 2), ("CT", -1)] = 13.4 ∧
      compute_spend_delta
        [⟨"NHS", 192, 0, 0⟩, ⟨"Defence", 57, 0, 0⟩]
        [("NHS", 0.1), ("Defence", -0.2)] = 7.8 :=
  ⟨of_decide_eq_true (by with_unfolding_all rfl),
   of_decide_eq_true (by with_unfolding_all rfl)⟩

/-- C8: entries of the change mapping whose key names no row of the table
have no effect: restricting the mapping to the table's row names gives the
same result from both aggregators. -/
theorem irrelevant_keys_ignored (df : List TaxRow) (sf : List SpendRow)
    (c cs : List (String × ℚ)) :
    compute_tax_delta df (c.filter fun p => decide (p.1 ∈ df.map TaxRow.name))
        = compute_tax_delta df c ∧
      compute_spend_delta sf (cs.filter fun p => decide (p.1 ∈ sf.map SpendRow.name))
        = compute_spend_delta sf cs := by
  constructor
  · rw [tax_delta_eq_sum, tax_delta_eq_sum]
    refine congrArg round2 (congrArg List.sum (List.map_congr_left fun r hr => ?_))
    unfold taxTerm dictGet
    have hlk := lookup_filter_key c r.name (fun n => decide (n ∈ df.map TaxRow.name))
      (decide_eq_true (List.mem_map_of_mem TaxRow.name hr))
    rw [hlk]
  · rw [spend_delta_eq_sum, spend_delta_eq_sum]
    refine congrArg round2 (congrArg List.sum (List.map_congr_left fun r hr => ?_))
    unfold spendTerm dictGet
    have hlk := lookup_filter_key cs r.name (fun n => decide (n ∈ sf.map SpendRow.name))
      (decide_eq_true (List.mem_map_of_mem SpendRow.name hr))
    rw [hlk]

/-- C9: in a table that already holds another row with the same name, an
extra row still contributes its own term, computed from the single mapping
value for that name: duplicate-named rows are counted once per row. -/
theorem duplicate_rows_each_counted (df1 df2 : List TaxRow) (r : TaxRow)
    (sf1 sf2 : List SpendRow) (s : SpendRow) (c cs : List (String × ℚ))
    (_hT : r.name ∈ (df1 ++ df2).map TaxRow.name)
    (_hS : s.name ∈ (sf1 ++ sf2).map SpendRow.name) :
    compute_tax_delta (df1 ++ r :: df2) c
        = round2 ((((df1 ++ df2).map (taxTerm c)).sum
            + dictGet c r.name 0 * r.delta_per_unit)) ∧
      compute_spend_delta (sf1 ++ s :: sf2) cs
        = round2 ((((sf1 ++ sf2).map (spendTerm cs)).sum
            + dictGet cs s.name 0 * s.baseline)) := by
  constructor
  · rw [tax_delta_eq_sum]
    congr 1
    rw [List.map_append, List.map_append, List.map_cons, List.sum_append,
      List.sum_append, List.sum_cons,
      show taxTerm c r = dictGet c r.name 0 * r.delta_per_unit from rfl]
    ring
  · rw [spend_delta_eq_sum]
    congr 1
    rw [List.map_append, List.map_append, List.map_cons, List.sum_append,
      List.sum_append, List.sum_cons,
      show spendTerm cs s = dictGet cs s.name 0 * s.baseline from rfl]
    ring

/-- C9 witness: a table with two rows both named `A` counts both rows'
terms, each using the single mapping value for `A`. -/
theorem duplicate_rows_each_counted_witness :
    compute_tax_delta [⟨"A", "u", 0, 2, 0, 0⟩, ⟨"A", "u", 0, 3, 0, 0⟩] [("A", 1)]
        = round2 ((([⟨"A", "u", 0, 2, 0, 0⟩] : List TaxRow).map (taxTerm [("A", 1)])).sum
            + dictGet [("A", 1)] "A" 0 * 3) ∧
      compute_spend_delta [⟨"A", 5, 0, 0⟩, ⟨"A", 7, 0, 0⟩] [("A", 1)]
        = round2 ((([⟨"A", 5, 0, 0⟩] : List SpendRow).map (spendTerm [("A", 1)])).sum
            + dictGet [("A", 1)] "A" 0 * 7) :=
  duplicate_rows_each_counted [⟨"A", "u", 0, 2, 0, 0⟩] [] ⟨"A", "u", 0, 3, 0, 0⟩
    [⟨"A", 5, 0, 0⟩] [] ⟨"A", 7, 0, 0⟩ [("A", 1)] [("A", 1)]
    (by simp) (by simp)

/-- C10: on a table with no rows, both aggregators return exactly 0 for
every change mapping. -/
theorem empty_table_zero_delta (c cs : List (String × ℚ)) :
    compute_tax_delta [] c = 0 ∧ compute_spend_delta [] cs = 0 :=
  ⟨round2_zero, round2_zero⟩

end SpendingReview
